import Mathlib

/-!
A shallow embedding of the SpeechPal server core (session store, conversation
service, WebSocket relay) with proofs of its specified properties.

Conventions of the embedding:
* JavaScript numbers that the code uses as exact integers are `Nat`/`Int`;
  the one real-number computation (`calculateAccuracy`) is carried out in `ℚ`.
* Nullable fields (`T | null`) are `Option T`; `x || null` coercions are made
  explicit through `jsOrNull…` helpers, because JavaScript treats `""` and `0`
  as falsy.
* `Map` objects are association lists with JavaScript `Map` semantics:
  `set` replaces in place (keeping insertion order) or appends; `values()`
  iterates in insertion order.
* Calls to the external model provider are modelled by outcome parameters
  (`GrammarOutcome`, `ReplyOutcome`, `Except … ConversationResponse`) supplied
  to the functions that perform them; an explicit `Effect` trace records which
  provider calls and socket sends a relay handler performs.
* `Math.random()` draws are modelled as index parameters.
-/

namespace SpeechPal

/-! ### Data model (shared/schema.ts) -/

/-- A single flagged language issue, from `GrammarCorrection` in the OpenAI
service module. -/
structure GrammarCorrection where
  original : String
  corrected : String
  explanation : String
  type : String
deriving DecidableEq, Repr

/-- Extra JSON blobs stored on messages (`metadata` column): the relay stores
`{ topicId }` on user messages and `{ encouragement, nextPrompt }` on bot
messages. -/
inductive Metadata where
  | topicMeta (topicId : Option String)
  | botMeta (encouragement : String) (nextPrompt : Option String)
deriving DecidableEq, Repr

/-- A conversation session record (`sessions` table / `Session` type). -/
structure Session where
  id : String
  userId : Option String
  startTime : Nat
  endTime : Option Nat
  durationMinutes : Option Int
  messagesCount : Option Int
  correctionsCount : Option Int
  accuracyScore : Option Int
  topicId : Option String
  isActive : Bool
deriving DecidableEq, Repr

/-- A session draft (`InsertSession`): the insert schema omits `id` and
`startTime`; every remaining field is optional. -/
structure InsertSession where
  userId : Option String
  endTime : Option Nat
  durationMinutes : Option Int
  messagesCount : Option Int
  correctionsCount : Option Int
  accuracyScore : Option Int
  topicId : Option String
  isActive : Option Bool
deriving DecidableEq, Repr

/-- A message record (`messages` table / `Message` type). -/
structure Message where
  id : String
  sessionId : String
  type : String
  content : String
  timestamp : Nat
  audioUrl : Option String
  corrections : Option (List GrammarCorrection)
  metadata : Option Metadata
deriving DecidableEq, Repr

/-- A message draft (`InsertMessage`): the insert schema omits `id` and
`timestamp`. -/
structure InsertMessage where
  sessionId : String
  type : String
  content : String
  audioUrl : Option String
  corrections : Option (List GrammarCorrection)
  metadata : Option Metadata
deriving DecidableEq, Repr

/-! ### JavaScript value coercions -/

/-- JavaScript truthiness of an optional string: `null`/`undefined` and `""`
are falsy. -/
def jsTruthyStr : Option String → Bool
  | none => false
  | some s => !(s == "")

/-- JavaScript `x || null` on an optional string: absent or empty collapses to
null. -/
def jsOrNullStr (x : Option String) : Option String :=
  if jsTruthyStr x then x else none

/-- JavaScript `x || null` on an optional integer: absent or `0` collapses to
null. -/
def jsOrNullInt : Option Int → Option Int
  | none => none
  | some n => if n = 0 then none else some n

/-! ### Association lists with JavaScript `Map` semantics -/

/-- Embedding of `Map.prototype.set`: replace the entry in place if the key exists
(preserving insertion order), otherwise append. -/
def mapSet {α : Type} : List (String × α) → String → α → List (String × α)
  | [], k, v => [(k, v)]
  | (k', v') :: rest, k, v =>
      if k' = k then (k, v) :: rest else (k', v') :: mapSet rest k v

/-- Embedding of `Map.prototype.get`. -/
def mapLookup {α : Type} : List (String × α) → String → Option α
  | [], _ => none
  | (k', v) :: rest, k => if k' = k then some v else mapLookup rest k

/-- Embedding of `Map.prototype.delete`. -/
def mapDelete {α : Type} (m : List (String × α)) (k : String) : List (String × α) :=
  m.filter (fun p => !(p.1 == k))

/-! ### Session store (server/storage.ts, MemStorage) -/

/-- The in-memory store. The topic and user-progress maps are read-only seed
data and per-user aggregates that none of the modelled operations touch, so
they are not carried here. -/
structure MemStorage where
  sessions : List (String × Session)
  messages : List (String × Message)
deriving DecidableEq, Repr

/-- Embeds `MemStorage.createSession`. `id` stands for the `randomUUID()` draw and
`now` for `new Date()`; every `insertSession.f || null` is made explicit. -/
def MemStorage.createSession (st : MemStorage) (id : String) (now : Nat)
    (insertSession : InsertSession) : Session × MemStorage :=
  let session : Session :=
    { id := id
      userId := jsOrNullStr insertSession.userId
      startTime := now
      endTime := insertSession.endTime
      durationMinutes := jsOrNullInt insertSession.durationMinutes
      messagesCount := jsOrNullInt insertSession.messagesCount
      correctionsCount := jsOrNullInt insertSession.correctionsCount
      accuracyScore := jsOrNullInt insertSession.accuracyScore
      topicId := jsOrNullStr insertSession.topicId
      isActive := insertSession.isActive.getD true }
  (session, { st with sessions := mapSet st.sessions id session })

/-- Embeds `MemStorage.getSession`. -/
def MemStorage.getSession (st : MemStorage) (id : String) : Option Session :=
  mapLookup st.sessions id

/-- A `Partial<Session>` update record: `some v` overrides the field with `v`,
`none` keeps the stored value (the field is absent from the partial). -/
structure SessionUpdate where
  id : Option String := none
  userId : Option (Option String) := none
  startTime : Option Nat := none
  endTime : Option (Option Nat) := none
  durationMinutes : Option (Option Int) := none
  messagesCount : Option (Option Int) := none
  correctionsCount : Option (Option Int) := none
  accuracyScore : Option (Option Int) := none
  topicId : Option (Option String) := none
  isActive : Option Bool := none
deriving DecidableEq, Repr

/-- The object-spread merge `{ ...session, ...updates }`. -/
def mergeSession (s : Session) (u : SessionUpdate) : Session :=
  { id := u.id.getD s.id
    userId := u.userId.getD s.userId
    startTime := u.startTime.getD s.startTime
    endTime := u.endTime.getD s.endTime
    durationMinutes := u.durationMinutes.getD s.durationMinutes
    messagesCount := u.messagesCount.getD s.messagesCount
    correctionsCount := u.correctionsCount.getD s.correctionsCount
    accuracyScore := u.accuracyScore.getD s.accuracyScore
    topicId := u.topicId.getD s.topicId
    isActive := u.isActive.getD s.isActive }

/-- Embeds `MemStorage.updateSession`. -/
def MemStorage.updateSession (st : MemStorage) (id : String)
    (updates : SessionUpdate) : Option Session × MemStorage :=
  match mapLookup st.sessions id with
  | none => (none, st)
  | some session =>
      let updatedSession := mergeSession session updates
      (some updatedSession, { st with sessions := mapSet st.sessions id updatedSession })

/-- Embeds `MemStorage.createMessage`. `corrections` and `metadata` pass through
(`[]` and `{}` are truthy in JavaScript); `audioUrl || null` collapses the
empty string. -/
def MemStorage.createMessage (st : MemStorage) (id : String) (now : Nat)
    (insertMessage : InsertMessage) : Message × MemStorage :=
  let message : Message :=
    { id := id
      sessionId := insertMessage.sessionId
      type := insertMessage.type
      content := insertMessage.content
      timestamp := now
      audioUrl := jsOrNullStr insertMessage.audioUrl
      corrections := insertMessage.corrections
      metadata := insertMessage.metadata }
  (message, { st with messages := mapSet st.messages id message })

/-- Embeds `MemStorage.getSessionMessages`: filter the map's values by session id and
sort by timestamp ascending (the numeric comparator `ta - tb`). -/
def MemStorage.getSessionMessages (st : MemStorage) (sessionId : String) : List Message :=
  ((st.messages.map Prod.snd).filter (fun m => m.sessionId == sessionId)).mergeSort
    (fun a b => decide (a.timestamp ≤ b.timestamp))

/-! ### Conversation service (server/services/openai.ts, OpenAIService) -/

/-- The result shape of `processUserMessage`. -/
structure ConversationResponse where
  reply : String
  corrections : List GrammarCorrection
  encouragement : String
  nextPrompt : Option String
deriving DecidableEq, Repr

/-- One entry of the service's rolling conversation history. -/
structure HistEntry where
  role : String
  content : String
deriving DecidableEq, Repr

/-- Outcome of the corrections call inside `analyzeGrammar`: the request can
throw, `JSON.parse` of the returned content can throw, or the parse succeeds
with a `corrections` field that may be absent. (A null content falls back to
`'{"corrections": []}'`, which is the `parsed (some [])` case.) -/
inductive GrammarOutcome where
  | apiError (e : String)
  | parseError (e : String)
  | parsed (corrections : Option (List GrammarCorrection))
deriving DecidableEq, Repr

/-- Outcome of the reply-generation call: the request can throw, or it
succeeds with a content string that may be null. -/
inductive ReplyOutcome where
  | apiError (e : String)
  | success (content : Option String)
deriving DecidableEq, Repr

/-- Embeds `OpenAIService.analyzeGrammar`: its own try/catch maps any fault to `[]`,
and an absent `corrections` field maps to `[]` via `result.corrections || []`. -/
def analyzeGrammar (outcome : GrammarOutcome) : List GrammarCorrection :=
  match outcome with
  | .apiError _ => []
  | .parseError _ => []
  | .parsed corrections => corrections.getD []

/-- The fixed phrase pool of `generateEncouragement`. -/
def encouragements : List String :=
  [ "Great job practicing! Keep it up! 🌟"
  , "You're doing wonderfully! I can see your confidence growing! 💪"
  , "Excellent effort! Every conversation makes you better! 🎉"
  , "Love your enthusiasm for learning! 🚀"
  , "You're making fantastic progress! 👏"
  , "Keep up the amazing work! You're getting more fluent! ✨" ]

/-- Embeds `OpenAIService.generateEncouragement`; `pick` models the
`Math.floor(Math.random() * encouragements.length)` draw. -/
def generateEncouragement (userText : String) (corrections : List GrammarCorrection)
    (pick : Fin 6) : String :=
  let phrase := encouragements.getD pick.val ""
  if corrections.length = 0 then
    "Perfect! Your English is spot on! " ++ phrase
  else if corrections.length ≤ 2 then
    "Almost perfect! Just small tweaks! " ++ phrase
  else
    "Good effort! We're learning together! " ++ phrase

/-- The fixed per-topic prompt table of `suggestNextPrompt`. -/
def topicPromptTable (topicId : String) : Option (List String) :=
  if topicId = "daily-routines" then some
    [ "What's your favorite part of the day?"
    , "How has your routine changed recently?"
    , "What would you like to add to your daily routine?" ]
  else if topicId = "travel" then some
    [ "What type of traveler are you - adventurous or relaxed?"
    , "How do you usually plan your trips?"
    , "What's the most interesting person you've met while traveling?" ]
  else if topicId = "hobbies" then some
    [ "How much time do you spend on your hobbies each week?"
    , "Have you ever taught someone else your hobby?"
    , "What tools or equipment do you need for your hobby?" ]
  else if topicId = "food-cooking" then some
    [ "What's the most challenging dish you've ever tried to make?"
    , "Do you have any family recipes?"
    , "What's your go-to comfort food?" ]
  else if topicId = "books-movies" then some
    [ "What genre do you usually prefer and why?"
    , "Do you like to discuss stories with friends?"
    , "What makes a story memorable for you?" ]
  else none

/-- Embeds `OpenAIService.suggestNextPrompt`; `pick` models the random index draw
(`!topicId` also rejects the empty string). -/
def suggestNextPrompt (topicId : Option String) (pick : Nat) : Option String :=
  match topicId with
  | none => none
  | some tid =>
      if tid = "" then none
      else
        match topicPromptTable tid with
        | some topicPrompts => some (topicPrompts.getD (pick % topicPrompts.length) "")
        | none => none

/-- Embeds `OpenAIService.processUserMessage`. The two provider calls are supplied as
outcomes; the rolling history is threaded explicitly (the user turn is pushed
before the calls, so it survives a failure). The outer catch converts a
reply-call fault into the generic failure message; `analyzeGrammar` never
throws, so a corrections fault cannot reach that catch. -/
def processUserMessage (hist : List HistEntry) (userText : String)
    (topicId : Option String) (grammarCall : GrammarOutcome) (replyCall : ReplyOutcome)
    (encPick : Fin 6) (promptPick : Nat) :
    Except String ConversationResponse × List HistEntry :=
  let hist1 := hist ++ [⟨"user", userText⟩]
  let corrections := analyzeGrammar grammarCall
  match replyCall with
  | .apiError _ => (.error "Failed to process message with AI", hist1)
  | .success content =>
      let reply := content.getD ""
      let hist2 := hist1 ++ [⟨"assistant", reply⟩]
      let encouragement := generateEncouragement userText corrections encPick
      (.ok ⟨reply, corrections, encouragement, suggestNextPrompt topicId promptPick⟩, hist2)

/-! ### Accuracy computation (server/services/websocket.ts) -/

/-- JavaScript `Math.round`: round half toward positive infinity. -/
def jsRound (q : ℚ) : ℤ := Int.floor (q + 1 / 2)

/-- Embeds `WebSocketService.calculateAccuracy`. -/
def calculateAccuracy (corrections : Nat) (wordCount : Nat) : Int :=
  if wordCount = 0 then 100
  else
    let errorRate : ℚ := (corrections : ℚ) / (wordCount : ℚ)
    max 0 (min 100 (jsRound ((1 - errorRate) * 100)))

/-- The word count the relay feeds into `calculateAccuracy`:
`userText.split(' ').length`. -/
def jsWordCount (s : String) : Nat := (s.splitOn " ").length

/-- The spec's accuracy formula, written from its words:
`clamp(round(100*(1 - C/W)), 0, 100)` for `W > 0`, and `100` for `W = 0`. -/
def specAccuracy (c w : Nat) : Int :=
  if w = 0 then 100
  else min 100 (max 0 (jsRound (100 * (1 - (c : ℚ) / (w : ℚ)))))

/-! ### WebSocket relay (server/services/websocket.ts, WebSocketService) -/

/-- The payload fields the relay reads from an inbound envelope
(the schema leaves `payload` untyped). -/
structure ClientPayload where
  text : Option String
  transcribedText : Option String
  topicId : Option String
deriving DecidableEq, Repr

/-- An inbound real-time envelope `{type, payload, sessionId?}`; the handler
casts without validating, so `type` is an arbitrary string. -/
structure WSClientMessage where
  type : String
  payload : ClientPayload
  sessionId : Option String
deriving DecidableEq, Repr

/-- The payload shapes the relay pushes back. -/
inductive WSPayload where
  | statusUpdate (status : String) (sessionId : Option String) (message : String)
  | botMessage (content : String) (corrections : List GrammarCorrection)
      (encouragement : String) (nextPrompt : Option String) (timestamp : Nat)
  | correctionsUpdate (corrections : List GrammarCorrection) (encouragement : String)
deriving DecidableEq, Repr

/-- An outbound envelope. -/
structure WSServerMessage where
  type : String
  sessionId : Option String
  payload : WSPayload
deriving DecidableEq, Repr

/-- Observable actions of a relay handler: a socket send to a connection, or a
call into the model provider (`openaiService.processUserMessage`). -/
inductive Effect where
  | send (connectionId : String) (message : WSServerMessage)
  | providerCall (userText : String) (topicId : Option String)
deriving DecidableEq, Repr

/-- Relay state: `connections` maps connection ids to their socket's
`readyState === OPEN` flag, `sessions` maps connection ids to session ids, and
`store` is the shared `MemStorage`. -/
structure RelayState where
  connections : List (String × Bool)
  sessions : List (String × String)
  store : MemStorage
deriving DecidableEq, Repr

/-- Whether the connection's socket exists and is OPEN. -/
def RelayState.isOpen (st : RelayState) (connectionId : String) : Bool :=
  (mapLookup st.connections connectionId).getD false

/-- Embeds `sendMessage`: drops silently unless the socket is OPEN. -/
def sendMessage (st : RelayState) (connectionId : String)
    (message : WSServerMessage) : List Effect :=
  if st.isOpen connectionId then [.send connectionId message] else []

/-- Embeds `sendError`: a `session_update` envelope with an error status. -/
def sendError (st : RelayState) (connectionId : String) (errorMessage : String) :
    List Effect :=
  sendMessage st connectionId ⟨"session_update", none, .statusUpdate "error" none errorMessage⟩

/-- The guest session draft both `handleAudioStart` and `handleTextMessage`
pass to `storage.createSession`. -/
def guestSessionDraft (topicId : Option String) : InsertSession :=
  { userId := some "guest"
    endTime := none
    durationMinutes := some 0
    messagesCount := some 0
    correctionsCount := some 0
    accuracyScore := some 0
    topicId := topicId
    isActive := some true }

/-- Embeds `processUserInput`, the shared one-user-turn routine: persist the user
message, call the provider (outcome supplied as `outcome`), and on success
persist the bot message, update the session counters, and push the reply (plus
a correction envelope when corrections exist); on failure push the canned
error text. `userMsgId`/`botMsgId` are the `randomUUID()` draws and `now` the
clock. -/
def processUserInput (st : RelayState) (connectionId : String) (sessionId : String)
    (userText : String) (topicId : Option String)
    (outcome : Except String ConversationResponse)
    (userMsgId botMsgId : String) (now : Nat) : RelayState × List Effect :=
  match mapLookup st.connections connectionId with
  | none => (st, [])
  | some _ =>
    let userSave := st.store.createMessage userMsgId now
      ⟨sessionId, "user", userText, none, none, some (.topicMeta topicId)⟩
    let store1 := userSave.2
    let callEffect : List Effect := [.providerCall userText topicId]
    match outcome with
    | .error _ =>
        ({ st with store := store1 },
          callEffect ++ sendError st connectionId "Failed to process your message. Please try again.")
    | .ok response =>
        let botSave := store1.createMessage botMsgId now
          ⟨sessionId, "bot", response.reply, none, some response.corrections,
            some (.botMeta response.encouragement response.nextPrompt)⟩
        let store2 := botSave.2
        let store3 :=
          match store2.getSession sessionId with
          | none => store2
          | some session =>
              (store2.updateSession sessionId
                { messagesCount := some (some (session.messagesCount.getD 0 + 2))
                  correctionsCount := some (some (session.correctionsCount.getD 0 +
                    (response.corrections.length : Int)))
                  accuracyScore := some (some (calculateAccuracy
                    response.corrections.length (jsWordCount userText))) }).2
        let replyEffects := sendMessage st connectionId
          ⟨"text_message", some sessionId,
            .botMessage response.reply response.corrections response.encouragement
              response.nextPrompt now⟩
        let correctionEffects :=
          if response.corrections.length > 0 then
            sendMessage st connectionId
              ⟨"correction", some sessionId,
                .correctionsUpdate response.corrections response.encouragement⟩
          else []
        ({ st with store := store3 }, callEffect ++ replyEffects ++ correctionEffects)

/-- Embeds `handleAudioStart`: ensure a session exists for the connection, then push
a recording status update naming the session id. -/
def handleAudioStart (st : RelayState) (connectionId : String)
    (message : WSClientMessage) (freshSessionId : String) (now : Nat) :
    RelayState × List Effect :=
  match mapLookup st.connections connectionId with
  | none => (st, [])
  | some _ =>
    match mapLookup st.sessions connectionId with
    | some sessionId =>
        (st, sendMessage st connectionId
          ⟨"session_update", none,
            .statusUpdate "recording" (some sessionId) "I'm listening! Speak naturally."⟩)
    | none =>
        let created := st.store.createSession freshSessionId now
          (guestSessionDraft message.payload.topicId)
        let st1 : RelayState :=
          { st with
            store := created.2
            sessions := mapSet st.sessions connectionId created.1.id }
        (st1, sendMessage st1 connectionId
          ⟨"session_update", none,
            .statusUpdate "recording" (some created.1.id) "I'm listening! Speak naturally."⟩)

/-- Embeds `handleAudioEnd`: without an associated session this returns silently; with
one, the transcribed text from the payload (or the fixed placeholder when it is
absent or empty, via `|| "I want to practice…"`) is handed to
`processUserInput`. -/
def handleAudioEnd (st : RelayState) (connectionId : String)
    (message : WSClientMessage) (outcome : Except String ConversationResponse)
    (userMsgId botMsgId : String) (now : Nat) : RelayState × List Effect :=
  match mapLookup st.connections connectionId with
  | none => (st, [])
  | some _ =>
    match mapLookup st.sessions connectionId with
    | none => (st, [])
    | some sessionId =>
        let transcribedText :=
          match message.payload.transcribedText with
          | some t => if t = "" then "I want to practice my English speaking skills." else t
          | none => "I want to practice my English speaking skills."
        processUserInput st connectionId sessionId transcribedText
          message.payload.topicId outcome userMsgId botMsgId now

/-- Embeds `handleTextMessage`: create a session for the connection if none exists,
then hand the payload's text to `processUserInput`. -/
def handleTextMessage (st : RelayState) (connectionId : String)
    (message : WSClientMessage) (outcome : Except String ConversationResponse)
    (freshSessionId userMsgId botMsgId : String) (now : Nat) :
    RelayState × List Effect :=
  match mapLookup st.connections connectionId with
  | none => (st, [])
  | some _ =>
    match mapLookup st.sessions connectionId with
    | some sessionId =>
        processUserInput st connectionId sessionId (message.payload.text.getD "")
          message.payload.topicId outcome userMsgId botMsgId now
    | none =>
        let created := st.store.createSession freshSessionId now
          (guestSessionDraft message.payload.topicId)
        let st1 : RelayState :=
          { st with
            store := created.2
            sessions := mapSet st.sessions connectionId created.1.id }
        processUserInput st1 connectionId created.1.id (message.payload.text.getD "")
          message.payload.topicId outcome userMsgId botMsgId now

/-- Embeds `handleMessage`: the dispatch switch. A missing or non-OPEN socket returns
silently; `audio_chunk` only logs; any tag other than the four accepted ones
falls through to `sendError 'Unknown message type'`. -/
def handleMessage (st : RelayState) (connectionId : String)
    (message : WSClientMessage) (outcome : Except String ConversationResponse)
    (freshSessionId userMsgId botMsgId : String) (now : Nat) :
    RelayState × List Effect :=
  match mapLookup st.connections connectionId with
  | none => (st, [])
  | some false => (st, [])
  | some true =>
    if message.type = "audio_start" then
      handleAudioStart st connectionId message freshSessionId now
    else if message.type = "audio_chunk" then (st, [])
    else if message.type = "audio_end" then
      handleAudioEnd st connectionId message outcome userMsgId botMsgId now
    else if message.type = "text_message" then
      handleTextMessage st connectionId message outcome freshSessionId userMsgId botMsgId now
    else (st, sendError st connectionId "Unknown message type")

/-- The `connection` handler: register the socket and push the welcome
status update. -/
def handleConnection (st : RelayState) (connectionId : String) :
    RelayState × List Effect :=
  let st1 : RelayState := { st with connections := mapSet st.connections connectionId true }
  (st1, sendMessage st1 connectionId
    ⟨"session_update", none,
      .statusUpdate "connected" none "Welcome to SpeakEasy! Ready to practice English?"⟩)

/-- The `close` handler (the `error` handler performs the same two deletions):
drop the connection and its connection-to-session mapping entry; the store is
untouched. -/
def handleClose (st : RelayState) (connectionId : String) : RelayState :=
  { st with connections := mapDelete st.connections connectionId,
            sessions := mapDelete st.sessions connectionId }

/-! ### One-shot conversation endpoint (server/routes.ts, POST /api/conversation/message) -/

/-- The request body fields the route reads. -/
structure ConversationRequestBody where
  message : Option String
  sessionId : Option String
deriving DecidableEq, Repr

/-- The JSON bodies the route can answer with. -/
inductive RestBody where
  | errorBody (error : String)
  | conversationBody (reply : String) (corrections : List GrammarCorrection)
      (encouragement : String)
deriving DecidableEq, Repr

/-- An HTTP response: status code plus JSON body (`res.json` defaults to 200). -/
structure RestResponse where
  status : Nat
  body : RestBody
deriving DecidableEq, Repr

/-- The canned fallback reply interpolating `req.body.message` (an absent
field prints as `undefined` in a template literal). -/
def fallbackReply (message : Option String) : String :=
  "Thank you for saying: \"" ++ message.getD "undefined" ++ "\". That's excellent English practice!"

/-- The `POST /api/conversation/message` handler. `processResult` is the
outcome of `processUserMessage` on a fresh service instance; the catch turns
any processing failure into a 200 with the canned fallback body. Note the
guard uses JavaScript truthiness: an empty-string field is rejected like an
absent one. -/
def conversationMessageRoute (body : ConversationRequestBody)
    (processResult : Except String ConversationResponse) : RestResponse :=
  if !(jsTruthyStr body.message) || !(jsTruthyStr body.sessionId) then
    ⟨400, .errorBody "Message and sessionId required"⟩
  else
    match processResult with
    | .ok r => ⟨200, .conversationBody r.reply r.corrections r.encouragement⟩
    | .error _ =>
        ⟨200, .conversationBody (fallbackReply body.message) []
          "Keep practicing - you're doing great!"⟩

/-! ### Encouragement tiers (for the C4 statement) -/

/-- The three encouragement tiers of `generateEncouragement`. -/
inductive EncouragementTier where
  | praise
  | almostPerfect
  | goodEffort
deriving DecidableEq, Repr

/-- The tier selected for a given correction count: the branch structure of
`generateEncouragement`. -/
def encouragementTier (n : Nat) : EncouragementTier :=
  if n = 0 then .praise else if n ≤ 2 then .almostPerfect else .goodEffort

/-- The fixed lead-in sentence of each tier. -/
def tierLead : EncouragementTier → String
  | .praise => "Perfect! Your English is spot on! "
  | .almostPerfect => "Almost perfect! Just small tweaks! "
  | .goodEffort => "Good effort! We're learning together! "

/-- All strings a tier can produce: its lead-in followed by one of the six
fixed phrases. -/
def tierPhrases (t : EncouragementTier) : List String :=
  encouragements.map (fun p => tierLead t ++ p)

/-! ### Theorems -/

/-- Lemma: `Math.round q = n` whenever `n ≤ q + 1/2 < n + 1`. -/
theorem jsRound_eq (q : ℚ) (n : ℤ) (h1 : (n : ℚ) ≤ q + 1 / 2) (h2 : q + 1 / 2 < n + 1) :
    jsRound q = n := by
  unfold jsRound
  rw [Int.floor_eq_iff]
  exact ⟨h1, h2⟩

/-- C1: for every correction count `C` and word count `W`, the accuracy
computed by `calculateAccuracy` equals the spec formula
`clamp(round(100*(1 - C/W)), 0, 100)` (with `100` for `W = 0`); in particular
`W = 0` always yields `100`, and `W = 10, C = 2` yields `80`. -/
theorem calculateAccuracy_matches_spec :
    (∀ c w : Nat, calculateAccuracy c w = specAccuracy c w) ∧
    (∀ c : Nat, calculateAccuracy c 0 = 100) ∧
    calculateAccuracy 2 10 = 80 := by
  refine ⟨fun c w => ?_, fun c => by simp [calculateAccuracy], ?_⟩
  · unfold calculateAccuracy specAccuracy
    by_cases hw : w = 0
    · simp [hw]
    · simp only [hw, if_false]
      have harg : ((1 : ℚ) - (c : ℚ) / (w : ℚ)) * 100 = 100 * (1 - (c : ℚ) / (w : ℚ)) := by
        ring
      rw [harg]
      omega
  · have h : jsRound 80 = 80 := by
      apply jsRound_eq <;> norm_num
    unfold calculateAccuracy
    norm_num [h]

/-- C3: if the corrections call fails (request fault or unparseable output)
while the reply call succeeds, `processUserMessage` still succeeds, with an
empty corrections list and the provider's reply in place — the corrections
fault never fails the whole operation. -/
theorem processUserMessage_grammar_fault_still_succeeds :
    ∀ (hist : List HistEntry) (userText : String) (topicId : Option String)
      (e : String) (content : Option String) (encPick : Fin 6) (promptPick : Nat),
      (processUserMessage hist userText topicId (.apiError e) (.success content)
          encPick promptPick).1 =
        .ok ⟨content.getD "", [], generateEncouragement userText [] encPick,
          suggestNextPrompt topicId promptPick⟩ ∧
      (processUserMessage hist userText topicId (.parseError e) (.success content)
          encPick promptPick).1 =
        .ok ⟨content.getD "", [], generateEncouragement userText [] encPick,
          suggestNextPrompt topicId promptPick⟩ := by
  intro hist userText topicId e content encPick promptPick
  exact ⟨rfl, rfl⟩

/-- C4: whatever the random phrase draw, the encouragement produced for a
correction list belongs to the tier determined purely by the correction count,
and that tier function maps 0 to the strongest-praise tier, 1 and 2 to the
"almost perfect" tier, and every count of 3 or more to the "good effort"
tier. -/
theorem generateEncouragement_tier_of_count :
    (∀ (userText : String) (corrections : List GrammarCorrection) (pick : Fin 6),
      generateEncouragement userText corrections pick ∈
        tierPhrases (encouragementTier corrections.length)) ∧
    encouragementTier 0 = .praise ∧
    encouragementTier 1 = .almostPerfect ∧
    encouragementTier 2 = .almostPerfect ∧
    (∀ n : Nat, encouragementTier (n + 3) = .goodEffort) := by
  refine ⟨?_, rfl, rfl, rfl, fun n => ?_⟩
  · intro userText corrections pick
    have hmem : encouragements.getD pick.val "" ∈ encouragements := by
      fin_cases pick <;> simp [encouragements]
    unfold generateEncouragement encouragementTier tierPhrases
    split_ifs <;> exact List.mem_map_of_mem _ hmem
  · unfold encouragementTier
    rw [if_neg (by omega), if_neg (by omega)]

/-- C6: for every store state and session id, `getSessionMessages` returns
exactly the stored messages carrying that session id (as a permutation of the
filtered value list) in non-decreasing timestamp order. -/
theorem getSessionMessages_filtered_and_sorted (st : MemStorage) (sessionId : String) :
    List.Perm (st.getSessionMessages sessionId)
      ((st.messages.map Prod.snd).filter (fun m => m.sessionId == sessionId)) ∧
    List.Pairwise (fun a b : Message => a.timestamp ≤ b.timestamp)
      (st.getSessionMessages sessionId) := by
  have htrans : ∀ a b c : Message,
      decide (a.timestamp ≤ b.timestamp) → decide (b.timestamp ≤ c.timestamp) →
      decide (a.timestamp ≤ c.timestamp) := by
    intro a b c h1 h2
    simp only [decide_eq_true_eq] at *
    omega
  have htotal : ∀ a b : Message,
      (decide (a.timestamp ≤ b.timestamp) || decide (b.timestamp ≤ a.timestamp)) = true := by
    intro a b
    simp only [Bool.or_eq_true, decide_eq_true_eq]
    exact Nat.le_total _ _
  unfold MemStorage.getSessionMessages
  constructor
  · exact List.mergeSort_perm _ _
  · exact (List.sorted_mergeSort htrans htotal _).imp (fun hab => by simpa using hab)

/-- C2 counterexample: a body whose `message` field is present but equal to
the empty string has both fields present, yet the endpoint answers 400 (the
truthiness guard `!message` rejects it) even though processing would have
succeeded. -/
theorem conversationMessageRoute_present_empty_counterexample :
    (ConversationRequestBody.mk (some "") (some "sess-1")).message.isSome = true ∧
    (ConversationRequestBody.mk (some "") (some "sess-1")).sessionId.isSome = true ∧
    (conversationMessageRoute ⟨some "", some "sess-1"⟩
      (.ok ⟨"Nice work!", [], "Great!", none⟩)).status = 400 := by
  exact ⟨rfl, rfl, rfl⟩

/-- C2 amended: for every request body whose `message` and `sessionId` are
present and non-empty (JavaScript-truthy), the endpoint answers a success
status (200) for every processing outcome, and when the internal processing
call fails the body is the canned fallback
`{reply, corrections: [], encouragement}` rather than an error. -/
theorem conversationMessageRoute_truthy_success (m sid : String)
    (hm : m ≠ "") (hs : sid ≠ "")
    (processResult : Except String ConversationResponse) :
    (conversationMessageRoute ⟨some m, some sid⟩ processResult).status = 200 ∧
    (∀ e, processResult = .error e →
      (conversationMessageRoute ⟨some m, some sid⟩ processResult).body =
        .conversationBody (fallbackReply (some m)) []
          "Keep practicing - you're doing great!") := by
  have ht : jsTruthyStr (some m) = true := by simp [jsTruthyStr, hm]
  have ht2 : jsTruthyStr (some sid) = true := by simp [jsTruthyStr, hs]
  cases processResult with
  | ok r =>
      refine ⟨?_, fun e he => by cases he⟩
      simp [conversationMessageRoute, ht, ht2]
  | error e0 =>
      refine ⟨?_, fun e he => ?_⟩ <;> simp [conversationMessageRoute, ht, ht2]

/-- Witness for the amended C2 at a concrete truthy body and a failing
processing call. -/
theorem conversationMessageRoute_truthy_success_witness :
    (conversationMessageRoute ⟨some "Hello", some "sess-1"⟩ (.error "boom")).status = 200 ∧
    (conversationMessageRoute ⟨some "Hello", some "sess-1"⟩ (.error "boom")).body =
      .conversationBody (fallbackReply (some "Hello")) []
        "Keep practicing - you're doing great!" :=
  ⟨(conversationMessageRoute_truthy_success "Hello" "sess-1" (by decide) (by decide)
      (.error "boom")).1,
   (conversationMessageRoute_truthy_success "Hello" "sess-1" (by decide) (by decide)
      (.error "boom")).2 "boom" rfl⟩

/-- Setting a key and reading it back yields the stored value. -/
theorem mapLookup_mapSet_self {α : Type} (m : List (String × α)) (k : String) (v : α) :
    mapLookup (mapSet m k v) k = some v := by
  induction m with
  | nil => simp [mapSet, mapLookup]
  | cons p rest ih =>
      obtain ⟨k', v'⟩ := p
      by_cases h : k' = k
      · simp [mapSet, mapLookup, h]
      · simp [mapSet, mapLookup, h, ih]

/-- Lemma: `x || null` is the identity away from the empty string. -/
theorem jsOrNullStr_of_ne_empty (x : Option String) (h : x ≠ some "") :
    jsOrNullStr x = x := by
  cases x with
  | none => rfl
  | some s =>
      have hs : s ≠ "" := fun hc => h (by rw [hc])
      simp [jsOrNullStr, jsTruthyStr, hs]

/-- The draft of the C5 scenario: `{userId: "guest", topicId: "travel"}`. -/
def guestTravelDraft : InsertSession :=
  { userId := some "guest"
    endTime := none
    durationMinutes := none
    messagesCount := none
    correctionsCount := none
    accuracyScore := none
    topicId := some "travel"
    isActive := none }

/-- C5 counterexample: the claim's own draft `{userId: "guest",
topicId: "travel"}` produces a session whose `messagesCount` is null, not 0
(`insertSession.messagesCount || null` coerces an unset — or zero — counter to
null); moreover a draft whose `userId` is the empty string is not preserved
either, since `userId || null` collapses it to null. -/
theorem createSession_draft_counterexample :
    ((MemStorage.mk [] []).createSession "sess-1" 0 guestTravelDraft).1.isActive = true ∧
    ((MemStorage.mk [] []).createSession "sess-1" 0 guestTravelDraft).1.messagesCount = none ∧
    ((MemStorage.mk [] []).createSession "sess-1" 0 guestTravelDraft).1.messagesCount ≠ some 0 ∧
    ((MemStorage.mk [] []).createSession "sess-1" 0
        { guestTravelDraft with userId := some "" }).1.userId = none ∧
    ((MemStorage.mk [] []).createSession "sess-1" 0
        { guestTravelDraft with userId := some "" }).1.userId ≠
      ({ guestTravelDraft with userId := some "" } : InsertSession).userId := by
  refine ⟨rfl, rfl, by decide, rfl, by decide⟩

/-- C5 amended: for every session draft whose `userId` and `topicId` are not
the empty string, `createSession` followed by `getSession` of the returned id
yields exactly the created record, whose `userId` and `topicId` equal the
draft's and whose active flag equals the draft's when present and `true`
otherwise; the `{userId: "guest", topicId: "travel"}` draft in particular
yields the generated id, `isActive = true`, and `messagesCount = null`
(not 0), because unset counters are coerced to null. -/
theorem createSession_getSession_roundtrip (st : MemStorage) (id : String) (now : Nat)
    (draft : InsertSession) (hu : draft.userId ≠ some "") (ht : draft.topicId ≠ some "") :
    (st.createSession id now draft).2.getSession id =
      some (st.createSession id now draft).1 ∧
    (st.createSession id now draft).1.id = id ∧
    (st.createSession id now draft).1.userId = draft.userId ∧
    (st.createSession id now draft).1.topicId = draft.topicId ∧
    (st.createSession id now draft).1.isActive = draft.isActive.getD true ∧
    ((MemStorage.mk [] []).createSession "sess-1" 0 guestTravelDraft).1.messagesCount
      = none := by
  refine ⟨?_, rfl, ?_, ?_, rfl, rfl⟩
  · unfold MemStorage.createSession MemStorage.getSession
    exact mapLookup_mapSet_self _ _ _
  · exact jsOrNullStr_of_ne_empty _ hu
  · exact jsOrNullStr_of_ne_empty _ ht

/-- Witness for the amended C5 at the scenario's draft on an empty store. -/
theorem createSession_getSession_roundtrip_witness :
    ((MemStorage.mk [] []).createSession "sess-1" 0 guestTravelDraft).2.getSession "sess-1" =
      some ((MemStorage.mk [] []).createSession "sess-1" 0 guestTravelDraft).1 ∧
    ((MemStorage.mk [] []).createSession "sess-1" 0 guestTravelDraft).1.userId =
      some "guest" ∧
    ((MemStorage.mk [] []).createSession "sess-1" 0 guestTravelDraft).1.topicId =
      some "travel" ∧
    ((MemStorage.mk [] []).createSession "sess-1" 0 guestTravelDraft).1.isActive = true ∧
    ((MemStorage.mk [] []).createSession "sess-1" 0 guestTravelDraft).1.messagesCount
      = none :=
  ⟨(createSession_getSession_roundtrip (MemStorage.mk [] []) "sess-1" 0 guestTravelDraft
      (by decide) (by decide)).1,
   (createSession_getSession_roundtrip (MemStorage.mk [] []) "sess-1" 0 guestTravelDraft
      (by decide) (by decide)).2.2.1,
   (createSession_getSession_roundtrip (MemStorage.mk [] []) "sess-1" 0 guestTravelDraft
      (by decide) (by decide)).2.2.2.1,
   (createSession_getSession_roundtrip (MemStorage.mk [] []) "sess-1" 0 guestTravelDraft
      (by decide) (by decide)).2.2.2.2.1,
   (createSession_getSession_roundtrip (MemStorage.mk [] []) "sess-1" 0 guestTravelDraft
      (by decide) (by decide)).2.2.2.2.2⟩

/-- C7: an inbound envelope on a live connection whose tag is none of
`audio_start`, `audio_chunk`, `audio_end`, `text_message` produces exactly one
error status-update envelope back on the same connection, with the relay state
(store, session map, and connection map) unchanged. -/
theorem handleMessage_unknown_tag (st : RelayState) (connectionId : String)
    (message : WSClientMessage) (outcome : Except String ConversationResponse)
    (freshSessionId userMsgId botMsgId : String) (now : Nat)
    (hopen : mapLookup st.connections connectionId = some true)
    (h1 : message.type ≠ "audio_start") (h2 : message.type ≠ "audio_chunk")
    (h3 : message.type ≠ "audio_end") (h4 : message.type ≠ "text_message") :
    handleMessage st connectionId message outcome freshSessionId userMsgId botMsgId now =
      (st, [.send connectionId
        ⟨"session_update", none, .statusUpdate "error" none "Unknown message type"⟩]) := by
  unfold handleMessage
  rw [hopen]
  rw [if_neg h1, if_neg h2, if_neg h3, if_neg h4]
  unfold sendError sendMessage RelayState.isOpen
  rw [hopen]
  rfl

/-- Witness for C7: a `bogus_type` envelope on a live connection. -/
theorem handleMessage_unknown_tag_witness :
    handleMessage (RelayState.mk [("conn-1", true)] [] (MemStorage.mk [] []))
      "conn-1" (WSClientMessage.mk "bogus_type" ⟨none, none, none⟩ none)
      (.ok ⟨"hi", [], "nice", none⟩) "sess-1" "msg-1" "msg-2" 0 =
      (RelayState.mk [("conn-1", true)] [] (MemStorage.mk [] []),
       [.send "conn-1"
         ⟨"session_update", none, .statusUpdate "error" none "Unknown message type"⟩]) :=
  handleMessage_unknown_tag _ "conn-1" _ _ "sess-1" "msg-1" "msg-2" 0
    (by decide) (by decide) (by decide) (by decide) (by decide)

/-- C8: when the provider call fails during a turn, `processUserInput` returns
normally and its only outputs are the provider-call record and a single push
to the originating connection carrying the fixed canned text — nothing derived
from the raw error `e` reaches the connection. -/
theorem processUserInput_reply_failure_canned (st : RelayState)
    (connectionId sessionId userText : String) (topicId : Option String) (e : String)
    (userMsgId botMsgId : String) (now : Nat)
    (hopen : mapLookup st.connections connectionId = some true) :
    processUserInput st connectionId sessionId userText topicId (.error e)
        userMsgId botMsgId now =
      ({ st with store := (st.store.createMessage userMsgId now
          ⟨sessionId, "user", userText, none, none, some (.topicMeta topicId)⟩).2 },
       [.providerCall userText topicId,
        .send connectionId ⟨"session_update", none,
          .statusUpdate "error" none "Failed to process your message. Please try again."⟩]) := by
  unfold processUserInput
  rw [hopen]
  unfold sendError sendMessage RelayState.isOpen
  rw [hopen]
  rfl

/-- Witness for C8 at a concrete state and failing provider call. -/
theorem processUserInput_reply_failure_canned_witness :
    processUserInput (RelayState.mk [("conn-1", true)] [("conn-1", "sess-1")]
        (MemStorage.mk [] []))
      "conn-1" "sess-1" "I are happy" none (.error "provider down") "msg-1" "msg-2" 5 =
      ({ RelayState.mk [("conn-1", true)] [("conn-1", "sess-1")] (MemStorage.mk [] []) with
          store := ((MemStorage.mk [] []).createMessage "msg-1" 5
            ⟨"sess-1", "user", "I are happy", none, none, some (.topicMeta none)⟩).2 },
       [.providerCall "I are happy" none,
        .send "conn-1" ⟨"session_update", none,
          .statusUpdate "error" none "Failed to process your message. Please try again."⟩]) :=
  processUserInput_reply_failure_canned _ "conn-1" "sess-1" "I are happy" none
    "provider down" "msg-1" "msg-2" 5 (by decide)

/-- Reading any key after a set: the set key sees the new value, all others
are untouched. -/
theorem mapLookup_mapSet {α : Type} (m : List (String × α)) (k c : String) (v : α) :
    mapLookup (mapSet m k v) c = if c = k then some v else mapLookup m c := by
  induction m with
  | nil =>
      by_cases hc : c = k
      · simp [mapSet, mapLookup, hc]
      · have hkc : ¬k = c := fun h => hc h.symm
        simp [mapSet, mapLookup, hc, hkc]
  | cons p rest ih =>
      obtain ⟨k', v'⟩ := p
      by_cases hk : k' = k
      · subst hk
        by_cases hc : c = k'
        · simp [mapSet, mapLookup, hc]
        · have hkc : ¬k' = c := fun h => hc h.symm
          simp [mapSet, mapLookup, hc, hkc]
      · by_cases hkc : k' = c
        · have hck : ¬c = k := fun h => hk (hkc.trans h)
          simp [mapSet, mapLookup, hk, hkc, hck]
        · simp [mapSet, mapLookup, hk, hkc, ih]

/-- Reading any key after a delete: the deleted key is gone, all others are
untouched. -/
theorem mapLookup_mapDelete {α : Type} (m : List (String × α)) (k c : String) :
    mapLookup (mapDelete m k) c = if c = k then none else mapLookup m c := by
  induction m with
  | nil => simp [mapDelete, mapLookup]
  | cons p rest ih =>
      obtain ⟨k', v'⟩ := p
      by_cases hk : k' = k
      · subst hk
        have hdrop : mapDelete ((k', v') :: rest) k' = mapDelete rest k' := by
          simp [mapDelete]
        rw [hdrop, ih]
        by_cases hc : c = k'
        · simp [hc]
        · have hkc : ¬k' = c := fun h => hc h.symm
          simp [mapLookup, hc, hkc]
      · have hkeep : mapDelete ((k', v') :: rest) k = (k', v') :: mapDelete rest k := by
          simp [mapDelete, hk]
        rw [hkeep]
        by_cases hkc : k' = c
        · have hck : ¬c = k := fun h => hk (hkc.trans h)
          simp [mapLookup, hkc, hck]
        · simp [mapLookup, hkc, ih]

/-- Lemma: `createMessage` never touches the session map. -/
theorem createMessage_preserves_sessions (st : MemStorage) (id : String) (now : Nat)
    (m : InsertMessage) : (st.createMessage id now m).2.sessions = st.sessions := rfl

/-- Lemma: `updateSession` keeps every stored session present. -/
theorem updateSession_getSession_isSome (st : MemStorage) (id : String)
    (u : SessionUpdate) (sid : String) (h : (st.getSession sid).isSome = true) :
    ((st.updateSession id u).2.getSession sid).isSome = true := by
  unfold MemStorage.updateSession
  cases hl : mapLookup st.sessions id with
  | none => exact h
  | some s =>
      unfold MemStorage.getSession
      rw [mapLookup_mapSet]
      by_cases hc : sid = id
      · simp [hc]
      · simpa [hc] using h

/-- Lemma: `processUserInput` never changes the connection map. -/
theorem processUserInput_connections (st : RelayState)
    (connectionId sessionId userText : String) (topicId : Option String)
    (outcome : Except String ConversationResponse)
    (userMsgId botMsgId : String) (now : Nat) :
    (processUserInput st connectionId sessionId userText topicId outcome
        userMsgId botMsgId now).1.connections = st.connections := by
  unfold processUserInput
  cases mapLookup st.connections connectionId with
  | none => rfl
  | some b =>
      cases outcome with
      | error e => rfl
      | ok r => cases ((st.store.createMessage userMsgId now
          ⟨sessionId, "user", userText, none, none, some (.topicMeta topicId)⟩).2.createMessage
            botMsgId now ⟨sessionId, "bot", r.reply, none, some r.corrections,
              some (.botMeta r.encouragement r.nextPrompt)⟩).2.getSession sessionId <;> rfl

/-- Lemma: `processUserInput` never changes the connection-to-session map. -/
theorem processUserInput_sessions (st : RelayState)
    (connectionId sessionId userText : String) (topicId : Option String)
    (outcome : Except String ConversationResponse)
    (userMsgId botMsgId : String) (now : Nat) :
    (processUserInput st connectionId sessionId userText topicId outcome
        userMsgId botMsgId now).1.sessions = st.sessions := by
  unfold processUserInput
  cases mapLookup st.connections connectionId with
  | none => rfl
  | some b =>
      cases outcome with
      | error e => rfl
      | ok r => cases ((st.store.createMessage userMsgId now
          ⟨sessionId, "user", userText, none, none, some (.topicMeta topicId)⟩).2.createMessage
            botMsgId now ⟨sessionId, "bot", r.reply, none, some r.corrections,
              some (.botMeta r.encouragement r.nextPrompt)⟩).2.getSession sessionId <;> rfl

/-- Lemma: `processUserInput` keeps every stored session present (it only appends
messages and merge-updates the turn's session). -/
theorem processUserInput_getSession_isSome (st : RelayState)
    (connectionId sessionId userText : String) (topicId : Option String)
    (outcome : Except String ConversationResponse)
    (userMsgId botMsgId : String) (now : Nat) (sid : String)
    (h : (st.store.getSession sid).isSome = true) :
    ((processUserInput st connectionId sessionId userText topicId outcome
        userMsgId botMsgId now).1.store.getSession sid).isSome = true := by
  unfold processUserInput
  cases mapLookup st.connections connectionId with
  | none => exact h
  | some b =>
      cases outcome with
      | error e => exact h
      | ok r =>
          dsimp only
          split
          · exact h
          · exact updateSession_getSession_isSome _ _ _ _ h

/-- C9: closing (or erroring) a connection removes only its entry from the
connection maps: the store — in particular the old session's record and its
active flag — is unchanged; and a brand-new connection that then sends its
first text message is assigned the freshly created session id, which (by
freshness of id generation) is never the previous connection's session id. -/
theorem handleClose_frame_and_fresh_session (st : RelayState)
    (connectionId connectionId' oldSessionId : String) (oldSession : Session)
    (message : WSClientMessage) (outcome : Except String ConversationResponse)
    (freshSessionId userMsgId botMsgId : String) (now : Nat)
    (hsess : mapLookup st.sessions connectionId = some oldSessionId)
    (hstore : st.store.getSession oldSessionId = some oldSession)
    (hactive : oldSession.isActive = true)
    (hnew : mapLookup st.sessions connectionId' = none)
    (hopen' : mapLookup (handleClose st connectionId).connections connectionId' = some true)
    (htype : message.type = "text_message")
    (hfresh : freshSessionId ≠ oldSessionId) :
    (handleClose st connectionId).store = st.store ∧
    (handleClose st connectionId).store.getSession oldSessionId = some oldSession ∧
    oldSession.isActive = true ∧
    mapLookup (handleClose st connectionId).sessions connectionId = none ∧
    mapLookup (handleMessage (handleClose st connectionId) connectionId' message outcome
        freshSessionId userMsgId botMsgId now).1.sessions connectionId' =
      some freshSessionId ∧
    freshSessionId ≠ oldSessionId := by
  have hclose_sess : (handleClose st connectionId).sessions =
      mapDelete st.sessions connectionId := rfl
  have hnew' : mapLookup (handleClose st connectionId).sessions connectionId' = none := by
    rw [hclose_sess, mapLookup_mapDelete]
    by_cases hc : connectionId' = connectionId
    · simp [hc]
    · simp [hc, hnew]
  refine ⟨rfl, hstore, hactive, ?_, ?_, hfresh⟩
  · rw [hclose_sess, mapLookup_mapDelete]
    simp
  · unfold handleMessage
    rw [hopen', htype]
    rw [if_neg (by decide), if_neg (by decide), if_neg (by decide), if_pos rfl]
    unfold handleTextMessage
    rw [hopen', hnew']
    dsimp only
    rw [processUserInput_sessions]
    dsimp only
    rw [mapLookup_mapSet]
    simp [MemStorage.createSession]

/-- Witness for C9: two live connections; the first owns a session, closes,
and the second then sends its first text message. -/
theorem handleClose_frame_and_fresh_session_witness :
    (handleClose (RelayState.mk [("conn-1", true), ("conn-2", true)]
        [("conn-1", "sess-old")]
        (MemStorage.mk [("sess-old",
          ⟨"sess-old", some "guest", 0, none, none, none, none, none, some "travel", true⟩)] []))
      "conn-1").store =
      MemStorage.mk [("sess-old",
        ⟨"sess-old", some "guest", 0, none, none, none, none, none, some "travel", true⟩)] [] ∧
    (handleClose (RelayState.mk [("conn-1", true), ("conn-2", true)]
        [("conn-1", "sess-old")]
        (MemStorage.mk [("sess-old",
          ⟨"sess-old", some "guest", 0, none, none, none, none, none, some "travel", true⟩)] []))
      "conn-1").store.getSession "sess-old" =
      some ⟨"sess-old", some "guest", 0, none, none, none, none, none, some "travel", true⟩ ∧
    (⟨"sess-old", some "guest", 0, none, none, none, none, none, some "travel", true⟩ :
      Session).isActive = true ∧
    mapLookup (handleClose (RelayState.mk [("conn-1", true), ("conn-2", true)]
        [("conn-1", "sess-old")]
        (MemStorage.mk [("sess-old",
          ⟨"sess-old", some "guest", 0, none, none, none, none, none, some "travel", true⟩)] []))
      "conn-1").sessions "conn-1" = none ∧
    mapLookup (handleMessage (handleClose (RelayState.mk [("conn-1", true), ("conn-2", true)]
        [("conn-1", "sess-old")]
        (MemStorage.mk [("sess-old",
          ⟨"sess-old", some "guest", 0, none, none, none, none, none, some "travel", true⟩)] []))
      "conn-1") "conn-2" (WSClientMessage.mk "text_message" ⟨some "I are happy", none, none⟩ none)
      (.error "provider down") "sess-new" "msg-1" "msg-2" 7).1.sessions "conn-2" =
      some "sess-new" ∧
    ("sess-new" : String) ≠ "sess-old" :=
  handleClose_frame_and_fresh_session _ "conn-1" "conn-2" "sess-old"
    ⟨"sess-old", some "guest", 0, none, none, none, none, none, some "travel", true⟩
    (WSClientMessage.mk "text_message" ⟨some "I are happy", none, none⟩ none)
    (.error "provider down") "sess-new" "msg-1" "msg-2" 7
    (by decide) (by decide) rfl (by decide) (by decide) rfl (by decide)

/-- C10: an `audio_end` envelope on a connection with no associated session is
silently dropped — the relay state (store included) is unchanged and no effect
(no provider call, no push) is produced — whereas a `text_message` in the same
situation creates a session in the store first. -/
theorem handleAudioEnd_no_session_silent (st : RelayState) (connectionId : String)
    (message : WSClientMessage) (outcome : Except String ConversationResponse)
    (freshSessionId userMsgId botMsgId : String) (now : Nat)
    (hnosess : mapLookup st.sessions connectionId = none)
    (hopen : mapLookup st.connections connectionId = some true) :
    handleAudioEnd st connectionId message outcome userMsgId botMsgId now = (st, []) ∧
    ((handleTextMessage st connectionId message outcome freshSessionId userMsgId botMsgId
        now).1.store.getSession freshSessionId).isSome = true := by
  constructor
  · unfold handleAudioEnd
    rw [hopen, hnosess]
  · unfold handleTextMessage
    rw [hopen, hnosess]
    dsimp only
    apply processUserInput_getSession_isSome
    unfold MemStorage.getSession MemStorage.createSession
    dsimp only
    rw [mapLookup_mapSet]
    simp

/-- Witness for C10: a session-less live connection receiving an `audio_end`
(and, for contrast, a `text_message`). -/
theorem handleAudioEnd_no_session_silent_witness :
    handleAudioEnd (RelayState.mk [("conn-1", true)] [] (MemStorage.mk [] []))
      "conn-1" (WSClientMessage.mk "audio_end" ⟨none, some "hello there", none⟩ none)
      (.ok ⟨"hi", [], "nice", none⟩) "msg-1" "msg-2" 3 =
      (RelayState.mk [("conn-1", true)] [] (MemStorage.mk [] []), []) ∧
    ((handleTextMessage (RelayState.mk [("conn-1", true)] [] (MemStorage.mk [] []))
        "conn-1" (WSClientMessage.mk "audio_end" ⟨none, some "hello there", none⟩ none)
        (.ok ⟨"hi", [], "nice", none⟩) "sess-new" "msg-1" "msg-2"
        3).1.store.getSession "sess-new").isSome = true :=
  handleAudioEnd_no_session_silent _ "conn-1"
    (WSClientMessage.mk "audio_end" ⟨none, some "hello there", none⟩ none)
    (.ok ⟨"hi", [], "nice", none⟩) "sess-new" "msg-1" "msg-2" 3 (by decide) (by decide)

end SpeechPal
